import Mathlib

/-!
Verification of the anomaly-detection engine
(`src/ai_automation/src/anomaly_detection.py`).

The Python class `AnomalyDetectionEngine` is shallowly embedded as a Lean
structure `Engine` together with pure functions over it.  Machine floats are
modelled as rationals (ℚ); the numpy/sklearn library objects
(`StandardScaler`, `IsolationForest`) are modelled as records of functions,
and library-fitting calls are abstracted behind an `SkLib` interface that
records sklearn's documented input validation (fitting on an empty matrix
raises `ValueError`).  Mutation of `self` is modelled by explicit state
passing: each method returns the updated `Engine`.  Fallible Python code
(uncaught exceptions) is modelled with `Except`.  The wall-clock timestamp
placed in each detection result is modelled as an explicit `now` parameter.
-/

namespace AnomalyDetection

/-- Severity tiers returned by `_determine_severity` and used for
per-metric tags in `_identify_affected_metrics`. -/
inductive Severity
  | NORMAL
  | LOW
  | MEDIUM
  | HIGH
  | CRITICAL
  deriving DecidableEq, Repr

/-- A `MetricSnapshot`: the Python `Dict[str, float]` of metric values,
modelled as an association list (lookup = `dict.get`, iteration order =
insertion order). -/
abbrev Snapshot : Type := List (String × ℚ)

/-- The engine's `self.thresholds` dict: four optional named cutoffs.
A key absent from the Python dict is `none`. -/
structure Thresholds where
  low : Option ℚ
  medium : Option ℚ
  high : Option ℚ
  critical : Option ℚ
  deriving DecidableEq, Repr

/-- The `severity_thresholds` entry of the configuration. -/
structure StaticThresholds where
  low : ℚ
  medium : ℚ
  high : ℚ
  critical : ℚ
  deriving DecidableEq, Repr

/-- The configuration dict.  `config.get(key, default)` accesses are
modelled as plain field accesses; a config parsed from a user file carries
arbitrary field values. -/
structure Config where
  contamination : ℚ
  randomState : ℕ
  nEstimators : ℕ
  maxSamples : String
  bootstrap : Bool
  featureWeights : List (String × ℚ)
  severityThresholds : StaticThresholds

/-- `_get_default_config`. -/
def defaultConfig : Config where
  contamination := 1/10
  randomState := 42
  nEstimators := 100
  maxSamples := "auto"
  bootstrap := false
  featureWeights :=
    [("response_time", 3/2), ("error_rate", 2), ("cpu_usage", 6/5),
     ("memory_usage", 13/10), ("throughput", 1), ("db_response_time", 7/5),
     ("active_users", 4/5), ("queue_length", 11/10)]
  severityThresholds := { low := -1/10, medium := -3/10, high := -1/2, critical := -7/10 }

/-- Linear interpolation step of `np.percentile` (default method) on an
already sorted array: position `pos` on the index scale `0 .. n-1`. -/
def interpolate (s : List ℚ) (pos : ℚ) : ℚ :=
  s.getD (Int.floor pos).toNat 0 +
    (pos - (Int.floor pos : ℚ)) *
      (s.getD ((Int.floor pos).toNat + 1) (s.getD (Int.floor pos).toNat 0) -
        s.getD (Int.floor pos).toNat 0)

/-- `np.percentile(scores, q)` with the default linear-interpolation
method: sort ascending, then interpolate at position `q/100 * (n-1)`. -/
def percentile (scores : List ℚ) (q : ℚ) : ℚ :=
  let s := scores.insertionSort (· ≤ ·)
  interpolate s (q * ((s.length : ℚ) - 1) / 100)

/-- `_calculate_dynamic_thresholds`: assign the 75th/85th/95th/99th
percentiles of the score array to low/medium/high/critical. -/
def calcDynamicThresholds (scores : List ℚ) : Thresholds where
  low := some (percentile scores 75)
  medium := some (percentile scores 85)
  high := some (percentile scores 95)
  critical := some (percentile scores 99)

/-- The fixed ten-name feature list hard-coded in `prepare_features`. -/
def canonicalFeatures : List String :=
  ["response_time", "error_rate", "cpu_usage", "memory_usage",
   "throughput", "db_response_time", "active_users", "queue_length",
   "document_processing_success_rate", "user_satisfaction_score"]

/-- The `if not self.feature_names and metrics_list:` guard of
`prepare_features`: the canonical list is installed when the stored list is
empty and the input is non-empty. -/
def resolveFeatures (fn : List String) (ms : List Snapshot) : List String :=
  if fn = [] ∧ ms ≠ [] then canonicalFeatures else fn

/-- A fitted `StandardScaler`, reduced to its `transform` map on feature
vectors. -/
structure Scaler where
  transform : List ℚ → List ℚ

/-- A fitted `IsolationForest`, reduced to its `decision_function` (on a
single vector) and its `predict(..) == -1` outlier test. -/
structure IForest where
  decisionFun : List ℚ → ℚ
  predictOutlier : List ℚ → Bool

/-- The mutable state of an `AnomalyDetectionEngine` instance. -/
structure Engine where
  model : Option IForest
  scaler : Scaler
  isTrained : Bool
  featureNames : List String
  thresholds : Thresholds
  config : Config

/-- `self.config.get("feature_weights", {}).get(name, 1.0)`. -/
def weightOf (cfg : Config) (name : String) : ℚ :=
  (cfg.featureWeights.lookup name).getD 1

/-- One row of the feature matrix: `metrics.get(name, 0) * weight`. -/
def featureRow (cfg : Config) (fn : List String) (m : Snapshot) : List ℚ :=
  fn.map fun name => ((m : List (String × ℚ)).lookup name).getD 0 * weightOf cfg name

/-- `prepare_features`: installs the canonical feature-name list when the
stored one is empty, then builds one weighted row per snapshot. -/
def prepareFeatures (e : Engine) (ms : List Snapshot) : Engine × List (List ℚ) :=
  let fn := resolveFeatures e.featureNames ms
  ({ e with featureNames := fn }, ms.map (featureRow e.config fn))

/-- The severity if-elif chain over four explicit cutoffs. -/
def severityCascade (critical high medium low score : ℚ) : Severity :=
  if score ≤ critical then .CRITICAL
  else if score ≤ high then .HIGH
  else if score ≤ medium then .MEDIUM
  else if score ≤ low then .LOW
  else .NORMAL

/-- `_determine_severity`: the cascade over `self.thresholds.get(key, c)`
with the hard-coded fallback constants −0.7, −0.5, −0.3, −0.1. -/
def determineSeverity (t : Thresholds) (score : ℚ) : Severity :=
  severityCascade (t.critical.getD (-7/10)) (t.high.getD (-1/2))
    (t.medium.getD (-3/10)) (t.low.getD (-1/10)) score

/-- The `normal_ranges` dict of `_identify_affected_metrics`; `none` as
upper bound stands for `float('inf')`. -/
def normalRangesTable : List (String × (ℚ × Option ℚ)) :=
  [("response_time", (0, some 2000)), ("error_rate", (0, some 5)),
   ("cpu_usage", (0, some 70)), ("memory_usage", (0, some 80)),
   ("throughput", (50, none)), ("db_response_time", (0, some 1000)),
   ("active_users", (0, none)), ("queue_length", (0, some 50)),
   ("document_processing_success_rate", (95, some 100)),
   ("user_satisfaction_score", (7, some 10))]

/-- `normal_ranges[name]` / the `name in normal_ranges` membership test. -/
def normalRanges (name : String) : Option (ℚ × Option ℚ) :=
  normalRangesTable.lookup name

/-- `value > max_val` where `max_val` may be `float('inf')` (`none`). -/
def gtMax (v : ℚ) : Option ℚ → Bool
  | none => false
  | some m => decide (m < v)

/-- `value <= max_val` where `max_val` may be `float('inf')` (`none`). -/
def leMax (v : ℚ) : Option ℚ → Bool
  | none => true
  | some m => decide (v ≤ m)

/-- `_calculate_deviation`.  The `max_val == float('inf')` early return is
the `none` match arm (unreachable, since `value > inf` is never true). -/
def calcDeviation (value minVal : ℚ) (maxVal : Option ℚ) : ℚ :=
  if value < minVal then
    if minVal = 0 then |value| * 100
    else |(minVal - value) / minVal| * 100
  else if gtMax value maxVal then
    match maxVal with
    | none => 0
    | some m => |(value - m) / m| * 100
  else 0

/-- One record of the `affected_metrics` list. -/
structure AffectedMetric where
  metric : String
  value : ℚ
  normalRange : ℚ × Option ℚ
  deviationPercentage : ℚ
  severity : Severity

/-- `_identify_affected_metrics`: iterate the snapshot in insertion order,
flag each known metric outside its normal range. -/
def identifyAffectedMetrics (m : Snapshot) : List AffectedMetric :=
  (m : List (String × ℚ)).filterMap fun p =>
    match normalRanges p.1 with
    | none => none
    | some (mn, mx) =>
      if mn ≤ p.2 ∧ leMax p.2 mx = true then none
      else
        let dev := calcDeviation p.2 mn mx
        some { metric := p.1, value := p.2, normalRange := (mn, mx),
               deviationPercentage := dev,
               severity := if dev > 50 then .HIGH
                 else if dev > 25 then .MEDIUM else .LOW }

/-- The insight messages of `_generate_insights`, abstracted from their
string formatting to the rule that fired and its numeric payload. -/
inductive Insight
  | criticalAnomaly
  | significantDegradation
  | moderateAnomaly
  | responseTimeHigh (value deviation : ℚ)
  | errorRateHigh (value deviation : ℚ)
  | memoryCritical (value : ℚ)
  | cpuCritical (value : ℚ)
  | docProcessingFailures (value : ℚ)
  | errorResponseCorrelation
  | resourceExhaustion

/-- `_generate_insights`: score-banded message, then per-affected-metric
messages, then the two correlation rules, in source order. -/
def generateInsights (m : Snapshot) (score : ℚ) (affected : List AffectedMetric) :
    List Insight :=
  (if score < -(7/10) then [.criticalAnomaly]
   else if score < -(1/2) then [.significantDegradation]
   else if score < -(3/10) then [.moderateAnomaly]
   else [])
  ++ (affected.filterMap fun a =>
        if a.metric = "response_time" ∧ a.value > 3000 then
          some (.responseTimeHigh a.value a.deviationPercentage)
        else if a.metric = "error_rate" ∧ a.value > 10 then
          some (.errorRateHigh a.value a.deviationPercentage)
        else if a.metric = "memory_usage" ∧ a.value > 90 then
          some (.memoryCritical a.value)
        else if a.metric = "cpu_usage" ∧ a.value > 85 then
          some (.cpuCritical a.value)
        else if a.metric = "document_processing_success_rate" ∧ a.value < 90 then
          some (.docProcessingFailures a.value)
        else none)
  ++ (if ((m : List (String × ℚ)).lookup "error_rate").getD 0 > 5 ∧
         ((m : List (String × ℚ)).lookup "response_time").getD 0 > 2000 then
        [.errorResponseCorrelation]
      else [])
  ++ (if ((m : List (String × ℚ)).lookup "memory_usage").getD 0 > 80 ∧
         ((m : List (String × ℚ)).lookup "cpu_usage").getD 0 > 70 then
        [.resourceExhaustion]
      else [])

/-- Python `round(x, 3)` (round half to even), exactly on ℚ. -/
def pyRound3 (q : ℚ) : ℚ :=
  let y := q * 1000
  let f : ℤ := Int.floor y
  let r := y - (f : ℚ)
  let n : ℤ :=
    if r < 1/2 then f
    else if 1/2 < r then f + 1
    else if f % 2 = 0 then f else f + 1
  (n : ℚ) / 1000

/-- `_calculate_confidence`: `round(min(abs(score) / 1.0, 1.0), 3)`. -/
def calcConfidence (score : ℚ) : ℚ :=
  pyRound3 (min (|score| / 1) 1)

/-- The result dict of `detect_anomalies`; the `datetime.now()` timestamp
is the explicit `timestamp` field. -/
structure DetectionResult where
  isAnomaly : Bool
  severity : Severity
  anomalyScore : ℚ
  affectedMetrics : List AffectedMetric
  insights : List Insight
  timestamp : ℚ
  confidence : ℚ

/-- Failure modes of the engine (uncaught Python exceptions). -/
inductive EngineError
  | badConfig
  | emptyTrainingData
  | modelUnavailable
  deriving DecidableEq, Repr

/-- The persisted artifact set: model file + scaler file + the metadata
JSON's feature_names and thresholds, as read by `_load_trained_model`. -/
structure Artifact where
  model : IForest
  scaler : Scaler
  featureNames : List String
  thresholds : Thresholds

/-- The successful body of `_load_trained_model`: install model, scaler,
feature names and thresholds, and set `is_trained`.  The config is not
touched. -/
def applyArtifact (e : Engine) (a : Artifact) : Engine :=
  { e with model := some a.model, scaler := a.scaler,
           featureNames := a.featureNames, thresholds := a.thresholds,
           isTrained := true }

/-- `_load_trained_model`: `none` stands for a missing or corrupt artifact
(any exception in loading), re-raised as the RuntimeError
"No trained model available". -/
def loadTrainedModel (artifact : Option Artifact) (e : Engine) :
    Except EngineError Engine :=
  match artifact with
  | none => .error .modelUnavailable
  | some a => .ok (applyArtifact e a)

/-- The body of `detect_anomalies` after the trained model is in hand:
vectorize, standardize, score, classify, explain. -/
def detectCore (now : ℚ) (e : Engine) (f : IForest) (m : Snapshot) :
    Engine × DetectionResult :=
  let pf := prepareFeatures e [m]
  let xs := (pf.2.map e.scaler.transform).getD 0 []
  let score := f.decisionFun xs
  let affected := identifyAffectedMetrics m
  (pf.1,
   { isAnomaly := f.predictOutlier xs
     severity := determineSeverity e.thresholds score
     anomalyScore := score
     affectedMetrics := affected
     insights := generateInsights m score affected
     timestamp := now
     confidence := calcConfidence score })

/-- `detect_anomalies`: load the persisted model when untrained, then run
the detection body.  A trained flag with no model object would be a Python
`AttributeError` on `None`, modelled as `modelUnavailable`. -/
def detectAnomalies (now : ℚ) (artifact : Option Artifact) (e : Engine)
    (m : Snapshot) : Except EngineError (Engine × DetectionResult) :=
  match (if e.isTrained then Except.ok e else loadTrainedModel artifact e) with
  | .error err => .error err
  | .ok e1 =>
    match e1.model with
    | none => .error .modelUnavailable
    | some f => .ok (detectCore now e1 f m)

/-- `batch_detect_anomalies`: the sequential loop appending one
`detect_anomalies` result per input snapshot, threading engine state. -/
def batchDetectAnomalies (now : ℚ) (artifact : Option Artifact) :
    Engine → List Snapshot → Except EngineError (Engine × List DetectionResult)
  | e, [] => .ok (e, [])
  | e, m :: rest =>
    match detectAnomalies now artifact e m with
    | .error err => .error err
    | .ok er =>
      match batchDetectAnomalies now artifact er.1 rest with
      | .error err => .error err
      | .ok rs => .ok (rs.1, er.2 :: rs.2)

/-- The sklearn fitting entry points used by training.  `fitScaler` is
`StandardScaler().fit_transform`: on an empty matrix sklearn's input
validation raises `ValueError` ("0 sample(s)"), recorded here as the
defining property `fitScaler_empty`.  `fitForest` is
`IsolationForest(**params).fit` on the standardized matrix, returning the
fitted model's scoring interface. -/
structure SkLib where
  fitScaler : List (List ℚ) → Option (Scaler × List (List ℚ))
  fitForest : Config → List (List ℚ) → IForest
  fitScaler_empty : fitScaler [] = none

/-- `train_on_historical_data`: vectorize, fit scaler and model, mark
trained, calibrate thresholds from the training scores.  (`_save_model`
only writes files and never changes in-memory state; it is omitted.) -/
def trainOnHistoricalData (lib : SkLib) (e : Engine) (hist : List Snapshot) :
    Except EngineError Engine :=
  let pf := prepareFeatures e hist
  match lib.fitScaler pf.2 with
  | none => .error .emptyTrainingData
  | some (sc, xs) =>
    let f := lib.fitForest pf.1.config xs
    let scores := xs.map f.decisionFun
    .ok { pf.1 with model := some f, scaler := sc, isTrained := true,
                    thresholds := calcDynamicThresholds scores }

/-- `StandardScaler.transform` applied to a whole matrix: sklearn's input
validation rejects a 0-sample matrix (`ValueError`, the same check as on
fitting), otherwise the fitted transform is applied row-wise. -/
def transformMatrix (sc : Scaler) (X : List (List ℚ)) : Option (List (List ℚ)) :=
  if X = [] then none else some (X.map sc.transform)

/-- `update_model`: full retrain, or the incremental path that scores the
new data with the existing scaler and model and recalibrates thresholds
only.  Calling the incremental path with no model is a Python
`AttributeError` on `None`, modelled as `modelUnavailable`; calling it
with empty new data raises sklearn's 0-sample `ValueError` from
`scaler.transform`, modelled through `transformMatrix`. -/
def updateModel (lib : SkLib) (e : Engine) (newData : List Snapshot)
    (retrain : Bool) : Except EngineError Engine :=
  if retrain then trainOnHistoricalData lib e newData
  else
    match e.model with
    | none => .error .modelUnavailable
    | some f =>
      let pf := prepareFeatures e newData
      match transformMatrix e.scaler pf.2 with
      | none => .error .emptyTrainingData
      | some xs =>
        let scores := xs.map f.decisionFun
        .ok { pf.1 with thresholds := calcDynamicThresholds scores }

/-- The three parse outcomes of the configuration file: absent, present
but not valid JSON, or valid with parsed contents. -/
inductive ConfigFile
  | missing
  | malformed
  | valid (c : Config)

/-- `_load_config`: only `FileNotFoundError` is caught (falling back to
`_get_default_config`); a JSON decode error on a malformed file is not
caught and propagates out of `__init__`. -/
def loadConfig : ConfigFile → Except EngineError Config
  | .missing => .ok defaultConfig
  | .malformed => .error .badConfig
  | .valid c => .ok c

/-- The freshly constructed, unfitted `StandardScaler()` of `__init__`
(its `transform` is never reached before fitting on the verified paths). -/
def initScaler : Scaler := { transform := fun v => v }

/-- An engine's `self.thresholds = {}` initial state. -/
def emptyThresholds : Thresholds := { low := none, medium := none, high := none, critical := none }

/-- `AnomalyDetectionEngine.__init__`: construction succeeds exactly when
`_load_config` does not raise. -/
def mkEngine (file : ConfigFile) : Except EngineError Engine :=
  match loadConfig file with
  | .error err => .error err
  | .ok cfg =>
    .ok { model := none, scaler := initScaler, isTrained := false,
          featureNames := [], thresholds := emptyThresholds, config := cfg }

/-- Modelled from the spec: "severity_thresholds: fallback static cutoffs"
— the claimed behavior that, with dynamic thresholds missing, severity
classification falls back to the cutoffs of the *configuration's*
`severity_thresholds` option.  Stated for comparison with
`determineSeverity`, which uses hard-coded constants instead. -/
def specFallbackSeverity (cfg : Config) (t : Thresholds) (score : ℚ) : Severity :=
  severityCascade (t.critical.getD cfg.severityThresholds.critical)
    (t.high.getD cfg.severityThresholds.high)
    (t.medium.getD cfg.severityThresholds.medium)
    (t.low.getD cfg.severityThresholds.low) score

/-! ### Concrete sample values, used to instantiate general theorems -/

/-- A concrete fitted model: scores every vector 0, flags nothing. -/
def constForest : IForest where
  decisionFun := fun _ => 0
  predictOutlier := fun _ => false

/-- A concrete sklearn interface respecting the empty-input validation. -/
def sampleLib : SkLib where
  fitScaler := fun X => match X with
    | [] => none
    | X => some (initScaler, X)
  fitForest := fun _ _ => constForest
  fitScaler_empty := rfl

/-- A concrete trained engine. -/
def sampleEngine : Engine where
  model := some constForest
  scaler := initScaler
  isTrained := true
  featureNames := canonicalFeatures
  thresholds := { low := some (-1/10), medium := some (-3/10),
                  high := some (-1/2), critical := some (-7/10) }
  config := defaultConfig

/-- The stable form of a stored feature-name list after one
`prepare_features` call on a non-empty input. -/
def stabFeatures (fn : List String) : List String :=
  if fn = [] then canonicalFeatures else fn

/-- The engine state left behind by one detection call. -/
def stabEngine (e : Engine) : Engine :=
  { e with featureNames := stabFeatures e.featureNames }

/-- A concrete untrained engine (the state produced by `__init__` with no
config file). -/
def sampleUntrained : Engine where
  model := none
  scaler := initScaler
  isTrained := false
  featureNames := []
  thresholds := emptyThresholds
  config := defaultConfig

/-- A concrete persisted artifact. -/
def sampleArtifact : Artifact where
  model := constForest
  scaler := initScaler
  featureNames := canonicalFeatures
  thresholds := emptyThresholds

/-! ### Helper lemmas -/

theorem lookup_mem_values {α β : Type} [BEq α] {l : List (α × β)} {k : α} {b : β}
    (h : l.lookup k = some b) : b ∈ l.map Prod.snd := by
  induction l with
  | nil => simp at h
  | cons p rest ih =>
    rw [List.lookup_cons] at h
    by_cases hk : (k == p.1) = true
    · simp only [hk] at h
      cases h
      simp
    · simp only [Bool.not_eq_true] at hk
      simp only [hk] at h
      simp [ih h]

theorem sorted_getD_mono {s : List ℚ} (hs : s.Sorted (· ≤ ·)) {i j : ℕ} (d1 d2 : ℚ)
    (hij : i ≤ j) (hj : j < s.length) : s.getD i d1 ≤ s.getD j d2 := by
  have hi : i < s.length := lt_of_le_of_lt hij hj
  rw [List.getD_eq_get s _ hi, List.getD_eq_get s _ hj]
  exact hs.rel_get_of_le (Fin.mk_le_mk.mpr hij)

theorem sorted_getD_succ {s : List ℚ} (hs : s.Sorted (· ≤ ·)) {i : ℕ} (hi : i < s.length) :
    s.getD i 0 ≤ s.getD (i + 1) (s.getD i 0) := by
  rcases lt_or_ge (i + 1) s.length with h | h
  · exact sorted_getD_mono hs 0 _ (Nat.le_succ i) h
  · rw [List.getD_eq_default s _ h]

/-- The linear-interpolation step of `np.percentile` is monotone in the
position argument on a sorted array. -/
theorem interpolate_mono {s : List ℚ} (hs : s.Sorted (· ≤ ·)) {p q : ℚ}
    (hp : 0 ≤ p) (hpq : p ≤ q) (hq : q ≤ (s.length : ℚ) - 1) :
    interpolate s p ≤ interpolate s q := by
  have hn : 1 ≤ s.length := by
    by_contra hcon
    have h0 : s.length = 0 := by omega
    rw [h0] at hq
    have : (0 : ℚ) ≤ q := hp.trans hpq
    norm_num at hq
    linarith
  have hq0 : (0 : ℚ) ≤ q := hp.trans hpq
  have hfp0 : (0 : ℤ) ≤ ⌊p⌋ := Int.floor_nonneg.mpr hp
  have hfq0 : (0 : ℤ) ≤ ⌊q⌋ := Int.floor_nonneg.mpr hq0
  have hff : ⌊p⌋ ≤ ⌊q⌋ := Int.floor_le_floor hpq
  have hqn : ⌊q⌋ ≤ (s.length : ℤ) - 1 := by
    have h1 : ((⌊q⌋ : ℤ) : ℚ) ≤ (s.length : ℚ) - 1 := le_trans (Int.floor_le q) hq
    have h2 : (((s.length : ℤ) - 1 : ℤ) : ℚ) = (s.length : ℚ) - 1 := by push_cast; ring
    rw [← h2] at h1
    exact_mod_cast h1
  have hca : ((⌊p⌋.toNat : ℤ)) = ⌊p⌋ := Int.toNat_of_nonneg hfp0
  have hcb : ((⌊q⌋.toNat : ℤ)) = ⌊q⌋ := Int.toNat_of_nonneg hfq0
  have hab : ⌊p⌋.toNat ≤ ⌊q⌋.toNat := by omega
  have hbn : ⌊q⌋.toNat < s.length := by omega
  have han : ⌊p⌋.toNat < s.length := lt_of_le_of_lt hab hbn
  have hfpl : (⌊p⌋ : ℚ) ≤ p := Int.floor_le p
  have hfpu : p < (⌊p⌋ : ℚ) + 1 := Int.lt_floor_add_one p
  have hfql : (⌊q⌋ : ℚ) ≤ q := Int.floor_le q
  have hApBp : s.getD ⌊p⌋.toNat 0 ≤ s.getD (⌊p⌋.toNat + 1) (s.getD ⌊p⌋.toNat 0) :=
    sorted_getD_succ hs han
  have hAqBq : s.getD ⌊q⌋.toNat 0 ≤ s.getD (⌊q⌋.toNat + 1) (s.getD ⌊q⌋.toNat 0) :=
    sorted_getD_succ hs hbn
  unfold interpolate
  rcases eq_or_lt_of_le hab with hc | hc
  · rw [← hc]
    have hfeq : ((⌊p⌋ : ℤ) : ℚ) = ((⌊q⌋ : ℤ) : ℚ) := by
      exact_mod_cast congrArg (fun z : ℤ => (z : ℚ)) (by omega : (⌊p⌋ : ℤ) = ⌊q⌋)
    rw [← hfeq]
    nlinarith [mul_nonneg (by linarith : (0 : ℚ) ≤ q - p) (sub_nonneg.mpr hApBp)]
  · have h2 : s.getD (⌊p⌋.toNat + 1) (s.getD ⌊p⌋.toNat 0) ≤ s.getD ⌊q⌋.toNat 0 :=
      sorted_getD_mono hs _ 0 hc hbn
    nlinarith [mul_nonneg (by linarith : (0 : ℚ) ≤ (⌊p⌋ : ℚ) + 1 - p) (sub_nonneg.mpr hApBp),
      mul_nonneg (by linarith : (0 : ℚ) ≤ q - (⌊q⌋ : ℚ)) (sub_nonneg.mpr hAqBq)]

/-- `np.percentile` is monotone in the percentile level. -/
theorem percentile_mono (l : List ℚ) (hl : l ≠ []) {p q : ℚ}
    (hp : 0 ≤ p) (hpq : p ≤ q) (hq : q ≤ 100) :
    percentile l p ≤ percentile l q := by
  have hs : (l.insertionSort (· ≤ ·)).Sorted (· ≤ ·) := List.sorted_insertionSort _ l
  have hlen : (l.insertionSort (· ≤ ·)).length = l.length := List.length_insertionSort _ l
  have hl1 : 1 ≤ l.length := List.length_pos.mpr hl
  have hc0 : (0 : ℚ) ≤ ((l.insertionSort (· ≤ ·)).length : ℚ) - 1 := by
    rw [hlen]
    have : (1 : ℚ) ≤ (l.length : ℚ) := by exact_mod_cast hl1
    linarith
  unfold percentile
  apply interpolate_mono hs
  · positivity
  · have := mul_le_mul_of_nonneg_right hpq hc0
    linarith
  · nlinarith

/-! ### Claim theorems -/

/-- C1 counterexample: calibrating on the scores `[0, 1, 2, 3]` yields
`thresholds['critical'] = 2.97` (99th percentile) and
`thresholds['low'] = 2.25` (75th percentile), so the claimed invariant
`critical ≤ low` fails: percentiles at increasing levels of the same array
are non-decreasing, not non-increasing. -/
theorem dynamic_thresholds_order_counterexample :
    (calcDynamicThresholds [0, 1, 2, 3]).critical = some (297/100) ∧
    (calcDynamicThresholds [0, 1, 2, 3]).low = some (9/4) ∧
    ¬ ((297 : ℚ)/100 ≤ 9/4) := by
  have hsort : List.insertionSort (· ≤ ·) [(0:ℚ), 1, 2, 3] = [0, 1, 2, 3] := by
    norm_num [List.insertionSort, List.orderedInsert]
  have hfl99 : (⌊(99:ℚ) * ((4:ℚ) - 1) / 100⌋ : ℤ) = 2 := by
    norm_num [Int.floor_eq_iff]
  have hfl75 : (⌊(75:ℚ) * ((4:ℚ) - 1) / 100⌋ : ℤ) = 2 := by
    norm_num [Int.floor_eq_iff]
  refine ⟨?_, ?_, by norm_num⟩ <;>
    · simp only [calcDynamicThresholds, percentile, hsort, interpolate]
      norm_num [hfl99, hfl75, show Int.toNat 2 = 2 from rfl,
        List.getElem_cons_succ, List.getElem_cons_zero]

/-- C1 (amended): after every threshold calibration on a non-empty score
array, the computed thresholds satisfy
`thresholds['low'] ≤ thresholds['medium'] ≤ thresholds['high'] ≤
thresholds['critical']` — the reverse of the claimed chain — because the
75th/85th/95th/99th percentiles of the same array are non-decreasing. -/
theorem dynamic_thresholds_monotone (scores : List ℚ) (h : scores ≠ []) :
    ∃ lo me hi cr,
      calcDynamicThresholds scores =
        { low := some lo, medium := some me, high := some hi, critical := some cr } ∧
      lo ≤ me ∧ me ≤ hi ∧ hi ≤ cr :=
  ⟨percentile scores 75, percentile scores 85, percentile scores 95, percentile scores 99,
   rfl,
   percentile_mono scores h (by norm_num) (by norm_num) (by norm_num),
   percentile_mono scores h (by norm_num) (by norm_num) (by norm_num),
   percentile_mono scores h (by norm_num) (by norm_num) (by norm_num)⟩

/-- Witness for C1 (amended) at the concrete score array `[0, 1, 2, 3]`. -/
theorem dynamic_thresholds_monotone_witness :
    ∃ lo me hi cr,
      calcDynamicThresholds [0, 1, 2, 3] =
        { low := some lo, medium := some me, high := some hi, critical := some cr } ∧
      lo ≤ me ∧ me ≤ hi ∧ hi ≤ cr :=
  dynamic_thresholds_monotone [0, 1, 2, 3] (by simp)

/-- C4: for every score and every threshold set containing all four
entries, severity classification checks the thresholds most severe first:
CRITICAL if `score ≤ thresholds['critical']`, else HIGH if
`score ≤ thresholds['high']`, else MEDIUM if `score ≤
thresholds['medium']`, else LOW if `score ≤ thresholds['low']`, else
NORMAL; equality falls into the more severe bucket ("≤", not "<"). -/
theorem determine_severity_cascade (t : Thresholds) (s c h m l : ℚ)
    (hc : t.critical = some c) (hh : t.high = some h)
    (hm : t.medium = some m) (hl : t.low = some l) :
    determineSeverity t s =
      (if s ≤ c then Severity.CRITICAL
       else if s ≤ h then Severity.HIGH
       else if s ≤ m then Severity.MEDIUM
       else if s ≤ l then Severity.LOW
       else Severity.NORMAL) := by
  simp [determineSeverity, severityCascade, hc, hh, hm, hl]

/-- Witness for C4: a score exactly equal to the high threshold lands in
HIGH (the more severe bucket). -/
theorem determine_severity_cascade_witness :
    determineSeverity { low := some (-1/10), medium := some (-3/10),
                        high := some (-1/2), critical := some (-7/10) } (-1/2) =
      (if (-1/2 : ℚ) ≤ -7/10 then Severity.CRITICAL
       else if (-1/2 : ℚ) ≤ -1/2 then Severity.HIGH
       else if (-1/2 : ℚ) ≤ -3/10 then Severity.MEDIUM
       else if (-1/2 : ℚ) ≤ -1/10 then Severity.LOW
       else Severity.NORMAL) :=
  determine_severity_cascade _ (-1/2) (-7/10) (-1/2) (-3/10) (-1/10) rfl rfl rfl rfl

/-- C6 counterexample: a present-but-malformed configuration file is not
recovered — only `FileNotFoundError` is caught in `_load_config`, so the
JSON decode error propagates and engine construction fails. -/
theorem config_malformed_counterexample :
    mkEngine ConfigFile.malformed = .error .badConfig := rfl

/-- C6 (amended): a missing config file is recovered by falling back to
the default configuration and construction succeeds, likewise a valid
file yields its parsed configuration; but a malformed (not valid JSON)
file makes construction fail — the decode error is not caught. -/
theorem config_loading_amended :
    (∃ e, mkEngine ConfigFile.missing = .ok e ∧ e.config = defaultConfig ∧
      e.isTrained = false) ∧
    (∀ c, ∃ e, mkEngine (ConfigFile.valid c) = .ok e ∧ e.config = c) ∧
    mkEngine ConfigFile.malformed = .error .badConfig :=
  ⟨⟨_, rfl, rfl, rfl⟩, fun c => ⟨_, rfl, rfl⟩, rfl⟩

/-- C7: training on an empty sequence of historical snapshots fails with a
training-data error (sklearn's scaler fit rejects a 0-sample matrix before
the engine is ever marked trained) rather than completing. -/
theorem train_empty_fails (lib : SkLib) (e : Engine) :
    trainOnHistoricalData lib e [] = .error .emptyTrainingData := by
  simp [trainOnHistoricalData, prepareFeatures, resolveFeatures, lib.fitScaler_empty]

/-- Witness for C7 at a concrete library interface and engine. -/
theorem train_empty_fails_witness :
    trainOnHistoricalData sampleLib sampleEngine [] = .error .emptyTrainingData :=
  train_empty_fails sampleLib sampleEngine

/-- C10 counterexample: with no dynamic thresholds computed, the code
classifies against the hard-coded constants −0.7/−0.5/−0.3/−0.1, not the
configuration's `severity_thresholds`: with configured static cutoffs
−10/−20/−30/−40 a score of −1 would be NORMAL per the claim, but the code
returns CRITICAL. -/
theorem severity_fallback_counterexample :
    determineSeverity emptyThresholds (-1) = Severity.CRITICAL ∧
    specFallbackSeverity
      { defaultConfig with severityThresholds :=
          { low := -10, medium := -20, high := -30, critical := -40 } }
      emptyThresholds (-1) = Severity.NORMAL := by
  constructor <;>
    norm_num [determineSeverity, specFallbackSeverity, severityCascade, emptyThresholds]

/-- C10 (amended): with no dynamic thresholds computed, severity
classification falls back to fixed built-in cutoffs that coincide with the
*default* configuration's `severity_thresholds` (a user-configured
`severity_thresholds` option is never consulted); once dynamic thresholds
have been calibrated, all four entries are present and the fallback
cutoffs are unused. -/
theorem severity_fallback_amended :
    (∀ s : ℚ, determineSeverity emptyThresholds s =
        specFallbackSeverity defaultConfig emptyThresholds s) ∧
    (∀ (scores : List ℚ) (s : ℚ),
        determineSeverity (calcDynamicThresholds scores) s =
          severityCascade (percentile scores 99) (percentile scores 95)
            (percentile scores 85) (percentile scores 75) s) :=
  ⟨fun _ => rfl, fun _ _ => rfl⟩

/-- C2: for every trained engine (model present, feature-name list
established) and every non-empty sequence of new snapshots (sklearn's
transform validation raises on a 0-sample matrix), `update_model` with
retrain=false succeeds, leaves the model ensemble and the standardizer
unchanged — scoring any fixed vector before and after yields the same raw
decision-function score — and leaves every other field unchanged; only the
four thresholds are recalibrated from the new data's scores. -/
theorem update_no_retrain_frame (lib : SkLib) (e : Engine) (f : IForest)
    (newData : List Snapshot) (hf : e.model = some f) (hfn : e.featureNames ≠ [])
    (hne : newData ≠ []) :
    ∃ e', updateModel lib e newData false = .ok e' ∧
      e'.model = e.model ∧ e'.scaler = e.scaler ∧
      e'.featureNames = e.featureNames ∧ e'.isTrained = e.isTrained ∧
      e'.config = e.config ∧
      (∀ v, f.decisionFun (e'.scaler.transform v) =
        f.decisionFun (e.scaler.transform v)) ∧
      e'.thresholds = calcDynamicThresholds
        (newData.map fun m =>
          f.decisionFun (e.scaler.transform (featureRow e.config e.featureNames m))) := by
  have hres : resolveFeatures e.featureNames newData = e.featureNames := by
    simp [resolveFeatures, hfn]
  refine ⟨{ e with thresholds := calcDynamicThresholds
                     (newData.map fun m =>
                       f.decisionFun (e.scaler.transform
                         (featureRow e.config e.featureNames m))) },
    ?_, rfl, rfl, rfl, rfl, rfl, fun v => rfl, rfl⟩
  simp [updateModel, hf, prepareFeatures, hres, transformMatrix,
    List.map_eq_nil_iff, hne, List.map_map, Function.comp_def]

/-- Witness for C2 at a concrete trained engine and a one-snapshot update. -/
theorem update_no_retrain_frame_witness :
    ∃ e', updateModel sampleLib sampleEngine [[]] false = .ok e' ∧
      e'.model = sampleEngine.model ∧ e'.scaler = sampleEngine.scaler ∧
      e'.featureNames = sampleEngine.featureNames ∧
      e'.isTrained = sampleEngine.isTrained ∧
      e'.config = sampleEngine.config ∧
      (∀ v, constForest.decisionFun (e'.scaler.transform v) =
        constForest.decisionFun (sampleEngine.scaler.transform v)) ∧
      e'.thresholds = calcDynamicThresholds
        (([[]] : List Snapshot).map fun m =>
          constForest.decisionFun (sampleEngine.scaler.transform
            (featureRow sampleEngine.config sampleEngine.featureNames m))) :=
  update_no_retrain_frame sampleLib sampleEngine constForest [[]] rfl
    (by simp [sampleEngine, canonicalFeatures]) (by simp)

/-- C9: for every non-empty list of snapshots (and an engine whose stored
feature-name list is still empty or already canonical), vectorization
produces one row per snapshot in input order, each row listing the ten
canonical metrics in fixed order with entry = snapshot value × configured
weight (1 when unconfigured), a missing metric key contributing 0 (its
stored value defaults to 0); it is a pure function of its arguments, and
once the feature-name list is fixed the engine state is unchanged. -/
theorem prepare_features_spec (e : Engine) (ms : List Snapshot)
    (hfn : e.featureNames = [] ∨ e.featureNames = canonicalFeatures) (hms : ms ≠ []) :
    (prepareFeatures e ms).1 = { e with featureNames := canonicalFeatures } ∧
    (prepareFeatures e ms).2 =
      ms.map (fun m => canonicalFeatures.map fun name =>
        ((m : Snapshot).lookup name).getD 0 *
          (e.config.featureWeights.lookup name).getD 1) ∧
    (prepareFeatures e ms).2.length = ms.length ∧
    (∀ row ∈ (prepareFeatures e ms).2, row.length = 10) ∧
    (e.featureNames = canonicalFeatures → (prepareFeatures e ms).1 = e) := by
  have hres : resolveFeatures e.featureNames ms = canonicalFeatures := by
    rcases hfn with h | h <;> simp [resolveFeatures, h, hms, canonicalFeatures]
  refine ⟨?_, ?_, ?_, ?_, ?_⟩
  · simp [prepareFeatures, hres]
  · simp [prepareFeatures, hres, featureRow, weightOf]
  · simp [prepareFeatures]
  · intro row hrow
    simp only [prepareFeatures, hres, List.mem_map] at hrow
    obtain ⟨m, _, rfl⟩ := hrow
    simp [featureRow, canonicalFeatures]
  · intro h
    simp only [prepareFeatures, hres]
    rw [← h]

/-- Witness for C9 at a concrete engine and a single empty snapshot. -/
theorem prepare_features_spec_witness :
    (prepareFeatures sampleEngine [[]]).1 =
      { sampleEngine with featureNames := canonicalFeatures } ∧
    (prepareFeatures sampleEngine [[]]).2 =
      [[]].map (fun m => canonicalFeatures.map fun name =>
        ((m : Snapshot).lookup name).getD 0 *
          (sampleEngine.config.featureWeights.lookup name).getD 1) ∧
    (prepareFeatures sampleEngine [[]]).2.length = ([[]] : List Snapshot).length ∧
    (∀ row ∈ (prepareFeatures sampleEngine [[]]).2, row.length = 10) ∧
    (sampleEngine.featureNames = canonicalFeatures →
      (prepareFeatures sampleEngine [[]]).1 = sampleEngine) :=
  prepare_features_spec sampleEngine [[]] (Or.inr rfl) (by simp)

/-- Every entry of the `normal_ranges` table has a nonnegative lower
bound, and a positive upper bound at least the lower bound whenever the
upper bound is finite. -/
theorem normalRanges_spec (name : String) (mn : ℚ) (mx : Option ℚ)
    (hr : normalRanges name = some (mn, mx)) :
    0 ≤ mn ∧ (mx = none ∨ ∃ m, mx = some m ∧ 0 < m ∧ mn ≤ m) := by
  have hmem : (mn, mx) ∈ normalRangesTable.map Prod.snd := lookup_mem_values hr
  simp only [normalRangesTable, List.map_cons, List.map_nil, List.mem_cons,
    List.not_mem_nil, or_false] at hmem
  rcases hmem with h | h | h | h | h | h | h | h | h | h <;>
    (rw [Prod.mk.injEq] at h
     obtain ⟨rfl, rfl⟩ := h
     first
     | exact ⟨by norm_num, Or.inl rfl⟩
     | exact ⟨by norm_num, Or.inr ⟨_, rfl, by norm_num, by norm_num⟩⟩)

/-- C5: for every metric value and each normal range of the table — all
of which have lower bound ≥ 0 and positive finite upper bounds — the
deviation percentage is `|value| × 100` when `value < min = 0`,
`|min − value| / min × 100` when `value < min ≠ 0`, `|value − max| / max
× 100` when `value > max` finite, and 0 when the upper bound is unbounded
or the value is in range; it is always ≥ 0, and equals 0 exactly when the
value lies within `[min, max]`. -/
theorem calcDeviation_below_zero {v : ℚ} (mx : Option ℚ) (h1 : v < 0) :
    calcDeviation v 0 mx = |v| * 100 := by
  simp [calcDeviation, h1]

theorem calcDeviation_below {v mn : ℚ} (mx : Option ℚ) (h1 : v < mn) (h2 : mn ≠ 0) :
    calcDeviation v mn mx = |(mn - v) / mn| * 100 := by
  simp [calcDeviation, h1, h2]

theorem calcDeviation_above {v mn m : ℚ} (h1 : ¬ v < mn) (h2 : m < v) :
    calcDeviation v mn (some m) = |(v - m) / m| * 100 := by
  simp [calcDeviation, h1, gtMax, h2]

theorem calcDeviation_le_none {v mn : ℚ} (h1 : ¬ v < mn) :
    calcDeviation v mn none = 0 := by
  simp [calcDeviation, h1, gtMax]

theorem calcDeviation_le_some {v mn m : ℚ} (h1 : ¬ v < mn) (h2 : ¬ m < v) :
    calcDeviation v mn (some m) = 0 := by
  simp [calcDeviation, h1, gtMax, h2]

theorem deviation_spec (v : ℚ) (name : String) (mn : ℚ) (mx : Option ℚ)
    (hr : normalRanges name = some (mn, mx)) :
    (v < mn → mn = 0 → calcDeviation v mn mx = |v| * 100) ∧
    (v < mn → mn ≠ 0 → calcDeviation v mn mx = |mn - v| / mn * 100) ∧
    (∀ m, mx = some m → m < v → calcDeviation v mn mx = |v - m| / m * 100) ∧
    (mx = none → ¬ v < mn → calcDeviation v mn mx = 0) ∧
    0 ≤ calcDeviation v mn mx ∧
    (calcDeviation v mn mx = 0 ↔ (mn ≤ v ∧ leMax v mx = true)) := by
  obtain ⟨hmn, hmx⟩ := normalRanges_spec name mn mx hr
  refine ⟨?_, ?_, ?_, ?_, ?_, ?_⟩
  · intro h1 h2
    subst h2
    exact calcDeviation_below_zero mx h1
  · intro h1 h2
    have hmnpos : 0 < mn := lt_of_le_of_ne hmn (Ne.symm h2)
    rw [calcDeviation_below mx h1 h2, abs_div, abs_of_pos hmnpos]
  · intro m hm hlt
    rcases hmx with hnone | ⟨m', hm', hm'pos, hmnm'⟩
    · rw [hnone] at hm
      exact Option.noConfusion hm
    · rw [hm] at hm'
      injection hm' with hmm
      subst hmm
      subst hm
      have hnlt : ¬ v < mn := not_lt.mpr (hmnm'.trans hlt.le)
      rw [calcDeviation_above hnlt hlt, abs_div, abs_of_pos hm'pos]
  · intro hm hnlt
    subst hm
    exact calcDeviation_le_none hnlt
  · unfold calcDeviation
    rcases mx with _ | m <;> simp only [gtMax] <;> split_ifs <;> positivity
  · have hbelow : v < mn → calcDeviation v mn mx ≠ 0 := by
      intro hv
      by_cases h0 : mn = 0
      · subst h0
        rw [calcDeviation_below_zero mx hv]
        exact (mul_pos (abs_pos.mpr hv.ne) (by norm_num)).ne'
      · have hmnpos : 0 < mn := lt_of_le_of_ne hmn (Ne.symm h0)
        rw [calcDeviation_below mx hv h0]
        exact (mul_pos (abs_pos.mpr (div_ne_zero (by linarith) hmnpos.ne'))
          (by norm_num)).ne'
    rcases hmx with rfl | ⟨m, rfl, hmpos, hmnm⟩
    · by_cases hv : v < mn
      · simp only [hbelow hv, false_iff]
        rintro ⟨hle, _⟩
        exact absurd hle (not_le.mpr hv)
      · rw [calcDeviation_le_none hv]
        simp [leMax, not_lt.mp hv]
    · by_cases hv : v < mn
      · simp only [hbelow hv, false_iff]
        rintro ⟨hle, _⟩
        exact absurd hle (not_le.mpr hv)
      · by_cases hgt : m < v
        · have hne : calcDeviation v mn (some m) ≠ 0 := by
            rw [calcDeviation_above hv hgt]
            exact (mul_pos (abs_pos.mpr (div_ne_zero (by linarith) hmpos.ne'))
              (by norm_num)).ne'
          simp only [hne, false_iff]
          rintro ⟨_, hle⟩
          rw [leMax, decide_eq_true_eq] at hle
          exact absurd hle (not_le.mpr hgt)
        · rw [calcDeviation_le_some hv hgt]
          simp [leMax, not_lt.mp hv, not_lt.mp hgt]

/-- Witness for C5 at the throughput range `[50, ∞)` and value 30. -/
theorem deviation_spec_witness :
    ((30 : ℚ) < 50 → (50 : ℚ) = 0 → calcDeviation 30 50 none = |(30 : ℚ)| * 100) ∧
    ((30 : ℚ) < 50 → (50 : ℚ) ≠ 0 →
      calcDeviation 30 50 none = |(50 : ℚ) - 30| / 50 * 100) ∧
    (∀ m, (none : Option ℚ) = some m → m < 30 →
      calcDeviation 30 50 none = |(30 : ℚ) - m| / m * 100) ∧
    ((none : Option ℚ) = none → ¬ (30 : ℚ) < 50 → calcDeviation 30 50 none = 0) ∧
    0 ≤ calcDeviation 30 50 none ∧
    (calcDeviation 30 50 none = 0 ↔ ((50 : ℚ) ≤ 30 ∧ leMax (30 : ℚ) none = true)) :=
  deviation_spec 30 "throughput" 50 none rfl

theorem resolveFeatures_single (fn : List String) (m : Snapshot) :
    resolveFeatures fn [m] = stabFeatures fn := by
  simp [resolveFeatures, stabFeatures]

theorem stabFeatures_idem (fn : List String) :
    stabFeatures (stabFeatures fn) = stabFeatures fn := by
  by_cases h : fn = [] <;> simp [stabFeatures, h, canonicalFeatures]

theorem stabEngine_idem (e : Engine) : stabEngine (stabEngine e) = stabEngine e := by
  simp [stabEngine, stabFeatures_idem]

theorem detect_trained (now : ℚ) (a : Option Artifact) (e : Engine) (m : Snapshot)
    (f : IForest) (h1 : e.isTrained = true) (hf : e.model = some f) :
    detectAnomalies now a e m = .ok (detectCore now e f m) := by
  simp [detectAnomalies, h1, hf]

theorem detectCore_fst (now : ℚ) (e : Engine) (f : IForest) (m : Snapshot) :
    (detectCore now e f m).1 = stabEngine e := by
  simp [detectCore, prepareFeatures, resolveFeatures_single, stabEngine]

theorem detectCore_stab_snd (now : ℚ) (e : Engine) (f : IForest) (m : Snapshot) :
    (detectCore now (stabEngine e) f m).2 = (detectCore now e f m).2 := by
  simp only [detectCore, prepareFeatures, resolveFeatures_single, stabEngine,
    stabFeatures_idem]

theorem batch_detect_go (now : ℚ) (a : Option Artifact) (f : IForest)
    (batch : List Snapshot) :
    ∀ e : Engine, e.isTrained = true → e.model = some f →
      batchDetectAnomalies now a e batch =
        .ok (if batch.isEmpty then e else stabEngine e,
             batch.map fun m => (detectCore now e f m).2) := by
  induction batch with
  | nil =>
    intro e h1 hf
    simp [batchDetectAnomalies]
  | cons m rest ih =>
    intro e h1 hf
    have hdet : detectAnomalies now a e m = .ok (detectCore now e f m) :=
      detect_trained now a e m f h1 hf
    have hih := ih (stabEngine e) h1 hf
    rw [batchDetectAnomalies, hdet]
    simp only [detectCore_fst, hih, List.map_cons, List.isEmpty_cons]
    rw [stabEngine_idem]
    rw [List.map_congr_left fun m' _ => detectCore_stab_snd now e f m']
    by_cases hrest : rest.isEmpty <;> simp [hrest]

/-- C3: for every trained engine and every sequence of N snapshots, batch
detection succeeds and returns exactly N results — the image of the input
list under the single-snapshot detection body, hence in input order with
no cross-item interaction — and every one of those results is exactly what
the single-snapshot `detect` returns for that snapshot on the original
engine state. -/
theorem batch_detect_spec (now : ℚ) (a : Option Artifact) (e : Engine) (f : IForest)
    (batch : List Snapshot) (h1 : e.isTrained = true) (hf : e.model = some f) :
    ∃ e', batchDetectAnomalies now a e batch =
        .ok (e', batch.map fun m => (detectCore now e f m).2) ∧
      (batch.map fun m => (detectCore now e f m).2).length = batch.length ∧
      ∀ m : Snapshot, detectAnomalies now a e m = .ok (detectCore now e f m) :=
  ⟨_, batch_detect_go now a f batch e h1 hf, List.length_map _ _,
   fun m => detect_trained now a e m f h1 hf⟩

/-- Witness for C3 at a concrete trained engine and one-snapshot batch. -/
theorem batch_detect_spec_witness :
    ∃ e', batchDetectAnomalies 0 none sampleEngine [[]] =
        .ok (e', [[]].map fun m => (detectCore 0 sampleEngine constForest m).2) ∧
      ([[]].map fun m => (detectCore 0 sampleEngine constForest m).2).length =
        ([[]] : List Snapshot).length ∧
      ∀ m : Snapshot, detectAnomalies 0 none sampleEngine m =
        .ok (detectCore 0 sampleEngine constForest m) :=
  batch_detect_spec 0 none sampleEngine constForest [[]] rfl rfl

/-- C8: if `detect` is called on an untrained engine, the engine first
attempts to load the persisted artifact; when none is loadable (missing or
corrupt) it fails with the model-unavailable error — returning no result
and in particular never training on the live input — and when the load
succeeds, detection proceeds on the engine carrying exactly the loaded
model, scaler, feature names and thresholds. -/
theorem detect_untrained_spec (now : ℚ) (e : Engine) (m : Snapshot)
    (h : e.isTrained = false) :
    detectAnomalies now none e m = .error .modelUnavailable ∧
    ∀ a : Artifact,
      detectAnomalies now (some a) e m =
        .ok (detectCore now (applyArtifact e a) a.model m) ∧
      (applyArtifact e a).model = some a.model ∧
      (applyArtifact e a).scaler = a.scaler ∧
      (applyArtifact e a).featureNames = a.featureNames ∧
      (applyArtifact e a).thresholds = a.thresholds ∧
      (applyArtifact e a).isTrained = true := by
  constructor
  · simp [detectAnomalies, h, loadTrainedModel]
  · intro a
    refine ⟨?_, rfl, rfl, rfl, rfl, rfl⟩
    simp [detectAnomalies, h, loadTrainedModel, applyArtifact]

/-- Witness for C8 at a concrete untrained engine, both with no artifact
and with a concrete loadable artifact. -/
theorem detect_untrained_spec_witness :
    detectAnomalies 0 none sampleUntrained [] = .error .modelUnavailable ∧
    ∀ a : Artifact,
      detectAnomalies 0 (some a) sampleUntrained [] =
        .ok (detectCore 0 (applyArtifact sampleUntrained a) a.model []) ∧
      (applyArtifact sampleUntrained a).model = some a.model ∧
      (applyArtifact sampleUntrained a).scaler = a.scaler ∧
      (applyArtifact sampleUntrained a).featureNames = a.featureNames ∧
      (applyArtifact sampleUntrained a).thresholds = a.thresholds ∧
      (applyArtifact sampleUntrained a).isTrained = true :=
  detect_untrained_spec 0 sampleUntrained [] rfl

end AnomalyDetection
